import Mathlib

/-!
Verification development for the rpi-ocr repository.

This file is a shallow embedding, in Lean 4, of the core of the rpi-ocr
Python package:

* the canonical image container `OpenCVImage` and the Pillow image record,
  together with the pure transform functions of `ocr/utils.py`
  (threshold, erode, dilate, gaussian_blur, rotate, crop, greyscale,
  invert, adaptive_threshold) and the conversion functions
  (to_pil, to_cv2, to_bytes, to_base64);
* the reflective task dispatcher `process` and the top-level entry point
  `apply` of `ocr/__init__.py`;
* the rotate/zoom selection geometry of `ocr/gui.py`
  (`get_intersection`, `rotate_highlighted`, `rotate_image_corners`,
  `rotate_zoom` and the zoom composition done in `Gui.select_zoom`),
  embedded exactly at rotation angle 0 where all the trigonometry is
  exact rational arithmetic;
* the coalescing dispatch queue of `ocr/gui/roi_preview.py`
  (`ROIPreview.apply_ocr` drain-then-enqueue and the `OCRWorker.process`
  loop).

Machine integers (uint8 pixels) are modelled as `Nat` with an explicit
validity predicate `p <= 255`; Python floats appearing in the geometry are
modelled as exact rationals.  Calls into external libraries (OpenCV
morphology and resampling kernels, PIL filters, codecs, the filesystem)
are modelled as components of an `ExtKernels` record over which all
theorems are universally quantified; behaviour of those calls that the
repository relies on and that is fixed by the external library's
documented contract (elementwise thresholding, bitwise inversion,
colour-conversion channel requirements) is embedded concretely and
documented at the definition site.
-/

attribute [local semireducible] Rat.add Rat.mul Rat.inv Rat.sub

namespace RpiOcr

/-- Pixel raster of an image: a 2-D single-channel array (`grey`, one `Nat`
per pixel) or a 3-D channel-last array in R,G,B order (`color`).  Rows are
listed top to bottom, pixels left to right, mirroring numpy row-major
layout.  A `uint8` sample is a `Nat`; validity (`<= 255`) is tracked by
`PixelData.validb`. -/
inductive PixelData where
  | grey (rows : List (List Nat))
  | color (rows : List (List (Nat × Nat × Nat)))
deriving DecidableEq

/-- Boolean well-formedness of a raster: every sample fits in a uint8. -/
def PixelData.validb : PixelData → Bool
  | .grey rows => rows.all (fun r => r.all (fun p => p ≤ 255))
  | .color rows =>
      rows.all (fun r => r.all (fun t => t.1 ≤ 255 && t.2.1 ≤ 255 && t.2.2 ≤ 255))

/-- Number of rows (`shape[0]` of the numpy array). -/
def PixelData.height : PixelData → Nat
  | .grey rows => rows.length
  | .color rows => rows.length

/-- Number of columns (`shape[1]` of the numpy array; rasters are
rectangular, so the first row is representative). -/
def PixelData.width : PixelData → Nat
  | .grey rows => (rows.headD []).length
  | .color rows => (rows.headD []).length

/-- Map a sample-wise function over every channel of every pixel.  Models
numpy/cv2 elementwise operations, which act identically on 2-D and 3-D
uint8 arrays. -/
def PixelData.mapPixels (f : Nat → Nat) : PixelData → PixelData
  | .grey rows => .grey (rows.map (List.map f))
  | .color rows => .color (rows.map (List.map (fun t => (f t.1, f t.2.1, f t.2.2))))

/-- Default re-encoding format of `ocr/utils.py` (`DEFAULT_IMAGE_FORMAT = 'jpeg'`). -/
def DEFAULT_IMAGE_FORMAT : String := "jpeg"

/-- Default file extension (`'.' + DEFAULT_IMAGE_FORMAT`). -/
def DEFAULT_FILE_EXTENSION : String := "." ++ DEFAULT_IMAGE_FORMAT

/-- Byte-signature sniffing table `SIGNATURE_MAP` of `ocr/utils.py`, in the
source's (insertion) iteration order. -/
def SIGNATURE_MAP : List (String × List Nat) :=
  [("bmp", [0x42, 0x4d]),
   ("dib", [0x42, 0x4d]),
   ("jpg", [0xff, 0xd8, 0xff]),
   ("jpeg", [0xff, 0xd8, 0xff]),
   ("jpe", [0xff, 0xd8, 0xff]),
   ("png", [0x89, 0x50, 0x4e, 0x47, 0x0d, 0x0a, 0x1a, 0x0a]),
   ("tif", [0x49, 0x49, 0x2a, 0x00]),
   ("tiff", [0x49, 0x49, 0x2a, 0x00])]

/-- The canonical container of `ocr/utils.py`: a numpy `ndarray` subclass
carrying an `ext` attribute with the file extension of the original image.
`__array_finalize__` propagates `ext` through every numpy view/slice, so
slicing a container keeps its tag; that propagation is built into the
embedding of each transform below. -/
structure OpenCVImage where
  data : PixelData
  ext : String
deriving DecidableEq

/-- Constructor `OpenCVImage.__new__`: `obj.ext = ext or DEFAULT_FILE_EXTENSION`,
so both a missing tag and an empty-string tag fall back to the default. -/
def OpenCVImage.new (data : PixelData) (ext : Option String) : OpenCVImage :=
  ⟨data, match ext with
         | none => DEFAULT_FILE_EXTENSION
         | some e => if e = "" then DEFAULT_FILE_EXTENSION else e⟩

/-- A Pillow image: raster plus the `format` attribute (`None` for images
created in memory).  Mode `L` corresponds to `grey` data, mode `RGB` to
`color` data. -/
structure PILImage where
  data : PixelData
  format : Option String
deriving DecidableEq

/-- External behaviour the repository calls but does not define: OpenCV
morphology/resampling kernels, PIL filters, codecs, Base64 and the
filesystem.  All theorems are universally quantified over this record, so
they hold for every possible behaviour of the external libraries. -/
structure ExtKernels where
  /-- `cv2.warpAffine` applied with the expanded-canvas rotation matrix of
  `utils.rotate`; argument is the normalized angle in degrees. -/
  warpAffine : PixelData → Rat → PixelData
  /-- `cv2.erode` with an all-ones square kernel; arguments are kernel side
  and iteration count. -/
  erodeK : PixelData → Nat → Int → PixelData
  /-- `cv2.dilate` with an all-ones square kernel. -/
  dilateK : PixelData → Nat → Int → PixelData
  /-- `cv2.GaussianBlur`; arguments are kernel side and sigma. -/
  gaussianK : PixelData → Nat → Rat → PixelData
  /-- `cv2.adaptiveThreshold` with `maxValue=255` and `THRESH_BINARY`;
  arguments are the mean/gaussian method flag, the block size and the
  subtracted constant. -/
  adaptiveK : PixelData → Bool → Int → Rat → PixelData
  /-- `cv2.imencode`; arguments are the extension and the BGR raster;
  `none` models a failed encode (`ret` false). -/
  imencodeK : String → PixelData → Option (List Nat)
  /-- `cv2.imdecode` over a byte buffer; `none` models a failed decode
  (Python `None`). -/
  imdecodeK : List Nat → Option PixelData
  /-- `cv2.imread` over a path; `none` models a failed read. -/
  imreadK : String → Option PixelData
  /-- `PIL.ImageFilter.MinFilter` application. -/
  pilMinFilter : PixelData → Nat → PixelData
  /-- `PIL.ImageFilter.MaxFilter` application. -/
  pilMaxFilter : PixelData → Nat → PixelData
  /-- `PIL.ImageFilter.GaussianBlur` application with the given radius. -/
  pilGaussianBlur : PixelData → Rat → PixelData
  /-- `PIL.Image.rotate(angle, expand=True)` resampling. -/
  pilRotateExpand : PixelData → Rat → PixelData
  /-- `PIL.Image.crop` with a possibly out-of-bounds box (PIL pads). -/
  pilCrop : PixelData → Int → Int → Int → Int → PixelData
  /-- `PIL.Image.save` into a `BytesIO` using the given format; `none`
  models a raised save error (for example a `None` format). -/
  pilSaveBytes : Option String → PixelData → Option (List Nat)
  /-- `PIL.Image.open` on a path, returning raster and format. -/
  pilOpenPath : String → Option (PixelData × Option String)
  /-- `PIL.Image.open` on in-memory bytes, returning raster and format. -/
  pilOpenBytes : List Nat → Option (PixelData × Option String)
  /-- Reading a file as raw bytes; `none` models `OSError`. -/
  readFileK : String → Option (List Nat)
  /-- `base64.b64decode`; `none` models a `ValueError` (invalid Base64). -/
  b64decodeK : String → Option (List Nat)
  /-- `base64.b64encode(...).decode('ascii')`. -/
  b64encodeK : List Nat → String
  /-- Filesystem resolution performed by `utils.get_executable_path`;
  `none` models `FileNotFoundError`. -/
  fsResolveK : String → String → Option String

/-- A benign instantiation of the external kernels, used to evaluate the
embedding on concrete inputs. -/
def trivialKernels : ExtKernels :=
  ⟨fun d _ => d,
   fun d _ _ => d,
   fun d _ _ => d,
   fun d _ _ => d,
   fun d _ _ _ => d,
   fun _ _ => some [],
   fun _ => none,
   fun _ => none,
   fun d _ => d,
   fun d _ => d,
   fun d _ => d,
   fun d _ => d,
   fun d _ _ _ _ => d,
   fun _ _ => some [],
   fun _ => none,
   fun _ => none,
   fun _ => none,
   fun _ => none,
   fun _ => "",
   fun _ _ => none⟩

/-- Python exception surface relevant to the embedded slice. -/
inductive PyError where
  | attributeError (name : String)
  | typeError (msg : String)
  | valueError (msg : String)
  | keyError (key : String)
  | cvError (msg : String)
  | runtimeError (msg : String)
  | fileNotFoundError (msg : String)
deriving DecidableEq

/-- Elementwise binarization of `cv2.threshold(image, value, 255, THRESH_BINARY)`
and of the Pillow branch `image.point(lambda p: p > value and 255)`:
a sample strictly above the threshold becomes 255, anything else 0
(documented contract of both libraries, also stated in the spec's
per-operation table). -/
def thresholdPixel (value : Rat) (p : Nat) : Nat :=
  if (p : Rat) > value then 255 else 0

/-- Elementwise inversion: numpy `~` on a uint8 array and
`PIL.ImageOps.invert` both map a sample `p` to `255 - p`. -/
def invertPixel (p : Nat) : Nat := 255 - p

/-- Fixed-point RGB-to-grey conversion of `cv2.cvtColor(..., COLOR_RGB2GRAY)`:
`(4899 R + 9617 G + 1868 B + 8192) >> 14`, OpenCV's documented
implementation of `0.299 R + 0.587 G + 0.114 B`. -/
def rgbToGreyCV (t : Nat × Nat × Nat) : Nat :=
  (4899 * t.1 + 9617 * t.2.1 + 1868 * t.2.2 + 8192) / 16384

/-- Fixed-point RGB-to-L conversion used by `PIL.ImageOps.grayscale`
(`convert('L')`): `(19595 R + 38470 G + 7471 B + 32768) >> 16`, PIL's
documented `L = 299/1000 R + 587/1000 G + 114/1000 B`. -/
def rgbToGreyPIL (t : Nat × Nat × Nat) : Nat :=
  (19595 * t.1 + 38470 * t.2.1 + 7471 * t.2.2 + 32768) / 65536

/-- Channel swap of `cv2.cvtColor` between RGB and BGR; the source only
invokes it on 3-channel data (guarded by `ndim > 2`). -/
def swapRB : PixelData → PixelData
  | .grey rows => .grey rows
  | .color rows => .color (rows.map (List.map (fun t => (t.2.2, t.2.1, t.1))))

/-- Model of `cv2.cvtColor(obj, code=cv2.COLOR_RGB2BGR)` as called by
`utils.to_bytes` and `utils.save` on an arbitrary container.  OpenCV's
documented contract for the RGB/BGR swap requires a 3- or 4-channel
source; a single-channel (2-D) input raises `cv2.error` with
"Invalid number of channels in input image". -/
def cvtColorRGB2BGR : PixelData → Except PyError PixelData
  | .grey _ => .error (.cvError "Invalid number of channels in input image")
  | .color rows => .ok (.color (rows.map (List.map (fun t => (t.2.2, t.2.1, t.1)))))

/-- Python `int()` truncation toward zero of an exact rational. -/
def truncInt (q : Rat) : Int :=
  if q < 0 then -((-q).floor) else q.floor

/-- A Python number as passed to `crop`: the source distinguishes `int`
from `float` with `isinstance` checks. -/
inductive PyNum where
  | i (n : Int)
  | f (q : Rat)
deriving DecidableEq

/-- Whether the number is a Python `float`. -/
def PyNum.isFloat : PyNum → Bool
  | .i _ => false
  | .f _ => true

/-- The number as an exact rational. -/
def PyNum.toRat : PyNum → Rat
  | .i n => n
  | .f q => q

/-- The number read as an `int` (only used on the all-`int` path). -/
def PyNum.intVal : PyNum → Int
  | .i n => n
  | .f q => truncInt q

/-- Python list slicing `l[a:b]` with arbitrary (possibly negative) bounds:
negative indices count from the end, all indices clamp to the list. -/
def pySlice {α : Type} (l : List α) (a b : Int) : List α :=
  let n : Int := l.length
  let norm : Int → Int := fun i => if i < 0 then max (n + i) 0 else min i n
  (l.take (norm b).toNat).drop (norm a).toNat

/-- Two-dimensional slice `data[y0:y1, x0:x1]` of a raster. -/
def PixelData.slice2 (d : PixelData) (y0 y1 x0 x1 : Int) : PixelData :=
  match d with
  | .grey rows => .grey ((pySlice rows y0 y1).map (fun r => pySlice r x0 x1))
  | .color rows => .color ((pySlice rows y0 y1).map (fun r => pySlice r x0 x1))

/-- `utils.threshold`, OpenCV branch: elementwise binarization, result
wrapped with `ext=image.ext`. -/
def threshold (image : OpenCVImage) (value : Rat) : OpenCVImage :=
  ⟨image.data.mapPixels (thresholdPixel value), image.ext⟩

/-- `utils.threshold`, Pillow branch: `image.point(lambda p: p > value and 255)`
with `out.format = image.format`. -/
def pil_threshold (image : PILImage) (value : Rat) : PILImage :=
  ⟨image.data.mapPixels (thresholdPixel value), image.format⟩

/-- `utils.invert`, OpenCV branch: `OpenCVImage(~image, ext=image.ext)`. -/
def invert (image : OpenCVImage) : OpenCVImage :=
  ⟨image.data.mapPixels invertPixel, image.ext⟩

/-- `utils.invert`, Pillow branch: `ImageOps.invert` with format restored. -/
def pil_invert (image : PILImage) : PILImage :=
  ⟨image.data.mapPixels invertPixel, image.format⟩

/-- `utils.greyscale`, OpenCV branch: `ndim == 2` returns the same
instance, otherwise `cv2.cvtColor(..., COLOR_RGB2GRAY)` wrapped with the
input's `ext`. -/
def greyscale (image : OpenCVImage) : OpenCVImage :=
  match image.data with
  | .grey _ => image
  | .color rows => ⟨.grey (rows.map (List.map rgbToGreyCV)), image.ext⟩

/-- `utils.greyscale`, Pillow branch: mode `L` returns the same instance,
otherwise `ImageOps.grayscale` with format restored. -/
def pil_greyscale (image : PILImage) : PILImage :=
  match image.data with
  | .grey _ => image
  | .color rows => ⟨.grey (rows.map (List.map rgbToGreyPIL)), image.format⟩

/-- `utils.erode`, OpenCV branch: `radius is None or radius < 1 or
iterations < 1` returns the same instance; otherwise `cv2.erode` with an
all-ones kernel of side `2*radius+1`, wrapped with the input's `ext`. -/
def erode (K : ExtKernels) (image : OpenCVImage) (radius : Option Int)
    (iterations : Int) : OpenCVImage :=
  match radius with
  | none => image
  | some r =>
      if r < 1 ∨ iterations < 1 then image
      else ⟨K.erodeK image.data (2 * r + 1).toNat iterations, image.ext⟩

/-- `utils.erode`, Pillow branch: `iterations` successive `MinFilter`
applications with the format restored at the end. -/
def pil_erode (K : ExtKernels) (image : PILImage) (radius : Option Int)
    (iterations : Int) : PILImage :=
  match radius with
  | none => image
  | some r =>
      if r < 1 ∨ iterations < 1 then image
      else ⟨(fun d => Nat.rec d (fun _ acc => K.pilMinFilter acc (2 * r + 1).toNat)
               iterations.toNat) image.data,
            image.format⟩

/-- `utils.dilate`, OpenCV branch: same guard as `erode`, `cv2.dilate`
kernel. -/
def dilate (K : ExtKernels) (image : OpenCVImage) (radius : Option Int)
    (iterations : Int) : OpenCVImage :=
  match radius with
  | none => image
  | some r =>
      if r < 1 ∨ iterations < 1 then image
      else ⟨K.dilateK image.data (2 * r + 1).toNat iterations, image.ext⟩

/-- `utils.dilate`, Pillow branch: successive `MaxFilter` applications. -/
def pil_dilate (K : ExtKernels) (image : PILImage) (radius : Option Int)
    (iterations : Int) : PILImage :=
  match radius with
  | none => image
  | some r =>
      if r < 1 ∨ iterations < 1 then image
      else ⟨(fun d => Nat.rec d (fun _ acc => K.pilMaxFilter acc (2 * r + 1).toNat)
               iterations.toNat) image.data,
            image.format⟩

/-- `utils.gaussian_blur`, OpenCV branch: `radius is None or radius < 1`
returns the same instance, otherwise `cv2.GaussianBlur` with side
`2*radius+1` and `sigma = 0.3*(radius-1) + 0.8`, wrapped with the input's
`ext`. -/
def gaussian_blur (K : ExtKernels) (image : OpenCVImage)
    (radius : Option Int) : OpenCVImage :=
  match radius with
  | none => image
  | some r =>
      if r < 1 then image
      else ⟨K.gaussianK image.data (2 * r + 1).toNat ((3 * ((r : Rat) - 1)) / 10 + 4 / 5),
            image.ext⟩

/-- `utils.gaussian_blur`, Pillow branch: `GaussianBlur(radius)` filter
with format restored. -/
def pil_gaussian_blur (K : ExtKernels) (image : PILImage)
    (radius : Option Int) : PILImage :=
  match radius with
  | none => image
  | some r =>
      if r < 1 then image
      else ⟨K.pilGaussianBlur image.data r, image.format⟩

/-- `utils.rotate`, OpenCV branch for a container: `angle is None or
angle == 0` returns the same instance; a negative angle is normalized by
`+360`; otherwise `cv2.warpAffine` with the expanded-canvas matrix,
wrapped with the input's `ext`.  (The separate bounding-box-corner path
of the source, taken for plain `ndarray` inputs, is embedded for the
angle-0 geometry in `rotate_image_corners_zero` below.) -/
def rotate (K : ExtKernels) (image : OpenCVImage) (angle : Option Rat) : OpenCVImage :=
  match angle with
  | none => image
  | some a =>
      if a = 0 then image
      else ⟨K.warpAffine image.data (if a < 0 then a + 360 else a), image.ext⟩

/-- `utils.rotate`, Pillow branch: `image.rotate(angle, expand=True)` on
the normalized angle, with format restored. -/
def pil_rotate (K : ExtKernels) (image : PILImage) (angle : Option Rat) : PILImage :=
  match angle with
  | none => image
  | some a =>
      if a = 0 then image
      else ⟨K.pilRotateExpand image.data (if a < 0 then a + 360 else a), image.format⟩

/-- `utils.crop`, OpenCV branch: if any of the four parameters is a
`float`, all four are rescaled by width/height and truncated with
`int()`; the result is the numpy slice `image[y:y+h, x:x+w]`, whose `ext`
tag is propagated by `OpenCVImage.__array_finalize__`. -/
def crop (image : OpenCVImage) (x y w h : PyNum) : OpenCVImage :=
  let height : Int := image.data.height
  let width : Int := image.data.width
  let anyFloat := x.isFloat || y.isFloat || w.isFloat || h.isFloat
  let xi : Int := if anyFloat then truncInt ((width : Rat) * x.toRat) else x.intVal
  let yi : Int := if anyFloat then truncInt ((height : Rat) * y.toRat) else y.intVal
  let wi : Int := if anyFloat then truncInt ((width : Rat) * w.toRat) else w.intVal
  let hi : Int := if anyFloat then truncInt ((height : Rat) * h.toRat) else h.intVal
  ⟨image.data.slice2 yi (yi + hi) xi (xi + wi), image.ext⟩

/-- `utils.crop`, Pillow branch: same rescaling, then
`image.crop(box=(x, y, x+w, y+h))` (an external PIL call, which pads when
the box leaves the image), with format restored. -/
def pil_crop (K : ExtKernels) (image : PILImage) (x y w h : PyNum) : PILImage :=
  let height : Int := image.data.height
  let width : Int := image.data.width
  let anyFloat := x.isFloat || y.isFloat || w.isFloat || h.isFloat
  let xi : Int := if anyFloat then truncInt ((width : Rat) * x.toRat) else x.intVal
  let yi : Int := if anyFloat then truncInt ((height : Rat) * y.toRat) else y.intVal
  let wi : Int := if anyFloat then truncInt ((width : Rat) * w.toRat) else w.intVal
  let hi : Int := if anyFloat then truncInt ((height : Rat) * h.toRat) else h.intVal
  ⟨K.pilCrop image.data xi yi (xi + wi) (yi + hi), image.format⟩

/-- `utils.adaptive_threshold`, OpenCV branch: a multi-channel input is
first passed through `greyscale`; then `cv2.adaptiveThreshold` with block
size `2*radius+1`, wrapped with the (greyscaled) input's `ext`. -/
def adaptive_threshold_cv (K : ExtKernels) (image : OpenCVImage)
    (use_mean : Bool) (radius : Int) (c : Rat) : OpenCVImage :=
  let image :=
    match image.data with
    | .color _ => greyscale image
    | .grey _ => image
  ⟨K.adaptiveK image.data use_mean (2 * radius + 1) c, image.ext⟩

/-- A Python runtime value flowing through `process`/`apply`: a canonical
container, a Pillow image, a string (path or Base64), or raw bytes. -/
inductive PyVal where
  | cv (img : OpenCVImage)
  | pil (img : PILImage)
  | str (s : String)
  | bytes (b : List Nat)
deriving DecidableEq

/-- A Python scalar as it appears in task values and option maps. -/
inductive PyScalar where
  | int (n : Int)
  | float (q : Rat)
  | str (s : String)
  | bool (b : Bool)
  | pynone
deriving DecidableEq

/-- The value attached to a task name, discriminated the way
`ocr.process` discriminates it: list/tuple, dict, `None`, or a scalar. -/
inductive TaskValue where
  | tnone
  | scalar (v : PyScalar)
  | positional (args : List PyScalar)
  | named (kwargs : List (String × PyScalar))
deriving DecidableEq

/-- The call shape `process` uses for a resolved attribute `obj`:
`obj(image)`, `obj(image, value)`, `obj(image, *value)` or
`obj(image, **value)`. -/
inductive CallArgs where
  | noArgs
  | single (v : PyScalar)
  | star (args : List PyScalar)
  | kwargs (m : List (String × PyScalar))
deriving DecidableEq

/-- How `process` maps a task value to a call shape (source lines
`if isinstance(value, (list, tuple)) ... elif isinstance(value, dict) ...
elif value is None ... else ...`). -/
def taskArgs : TaskValue → CallArgs
  | .tnone => .noArgs
  | .scalar v => .single v
  | .positional args => .star args
  | .named kwargs => .kwargs kwargs

/-- Numeric coercion used in comparisons and arithmetic: Python `bool` is
an `int`; a string or `None` in a numeric position raises `TypeError`. -/
def PyScalar.toRat : PyScalar → Option Rat
  | .int n => some (n : Rat)
  | .float q => some q
  | .bool b => some (if b then 1 else 0)
  | _ => none

/-- A scalar as an `Option Int` radius/angle-style argument: `None` maps
to `none`, an `int` (or `bool`) to its value; a `float` or string is
reported as a `TypeError` by the downstream numpy/cv2 call. -/
def PyScalar.toOptInt : PyScalar → Except PyError (Option Int)
  | .pynone => .ok none
  | .int n => .ok (some n)
  | .bool b => .ok (some (if b then 1 else 0))
  | _ => .error (.typeError "an integer is required")

/-- A scalar as an `Option Rat` angle argument (`rotate` accepts floats). -/
def PyScalar.toOptRat : PyScalar → Except PyError (Option Rat)
  | .pynone => .ok none
  | .int n => .ok (some (n : Rat))
  | .float q => .ok (some q)
  | .bool b => .ok (some (if b then 1 else 0))
  | _ => .error (.typeError "a number is required")

/-- A scalar as a `PyNum` crop coordinate. -/
def PyScalar.toPyNum : PyScalar → Except PyError PyNum
  | .int n => .ok (.i n)
  | .float q => .ok (.f q)
  | .bool b => .ok (.i (if b then 1 else 0))
  | _ => .error (.typeError "a number is required")

/-- Bind the call shape of a one-required-argument signature
`f(image, value)` (the keyword name of the argument is `kw`). -/
def bindArg1 (kw : String) : CallArgs → Except PyError PyScalar
  | .noArgs => .error (.typeError "missing 1 required positional argument")
  | .single v => .ok v
  | .star [v] => .ok v
  | .star [] => .error (.typeError "missing 1 required positional argument")
  | .star _ => .error (.typeError "too many positional arguments")
  | .kwargs [(k, v)] =>
      if k = kw then .ok v else .error (.typeError "unexpected keyword argument")
  | .kwargs _ => .error (.typeError "keyword argument mismatch")

/-- Bind the call shape of the signature `f(image, radius, iterations=1)`
used by `erode` and `dilate`. -/
def bindRadiusIterations : CallArgs → Except PyError (PyScalar × PyScalar)
  | .noArgs => .error (.typeError "missing 1 required positional argument")
  | .single v => .ok (v, .int 1)
  | .star [r] => .ok (r, .int 1)
  | .star [r, i] => .ok (r, i)
  | .star [] => .error (.typeError "missing 1 required positional argument")
  | .star _ => .error (.typeError "too many positional arguments")
  | .kwargs [("radius", r)] => .ok (r, .int 1)
  | .kwargs [("radius", r), ("iterations", i)] => .ok (r, i)
  | .kwargs [("iterations", i), ("radius", r)] => .ok (r, i)
  | .kwargs _ => .error (.typeError "keyword argument mismatch")

/-- Bind the call shape of the no-extra-argument signature `f(image)`. -/
def bindNoArgs : CallArgs → Except PyError Unit
  | .noArgs => .ok ()
  | .star [] => .ok ()
  | .kwargs [] => .ok ()
  | _ => .error (.typeError "takes 1 positional argument")

/-- Bind the call shape of `crop(image, x, y, w, h)`. -/
def bindCrop : CallArgs → Except PyError (PyNum × PyNum × PyNum × PyNum)
  | .star [a, b, c, d] => do
      let x ← a.toPyNum
      let y ← b.toPyNum
      let w ← c.toPyNum
      let h ← d.toPyNum
      .ok (x, y, w, h)
  | .kwargs [("x", a), ("y", b), ("w", c), ("h", d)] => do
      let x ← a.toPyNum
      let y ← b.toPyNum
      let w ← c.toPyNum
      let h ← d.toPyNum
      .ok (x, y, w, h)
  | _ => .error (.typeError "crop argument mismatch")

/-- Fold a kwargs list onto the keyword-only defaults of
`adaptive_threshold(image, *, use_mean=True, radius=2, c=0)`. -/
def bindAdaptive : CallArgs → Except PyError (Bool × Int × Rat)
  | .noArgs => .ok (true, 2, 0)
  | .star [] => .ok (true, 2, 0)
  | .star _ => .error (.typeError "takes 1 positional argument")
  | .single _ => .error (.typeError "takes 1 positional argument")
  | .kwargs m =>
      m.foldlM
        (fun acc kv =>
          if kv.1 = "use_mean" then
            match kv.2 with
            | .bool b => .ok (b, acc.2.1, acc.2.2)
            | _ => .error (.typeError "a bool is required")
          else if kv.1 = "radius" then
            match kv.2 with
            | .int n => .ok (acc.1, n, acc.2.2)
            | _ => .error (.typeError "an integer is required")
          else if kv.1 = "c" then
            match kv.2.toRat with
            | some q => .ok (acc.1, acc.2.1, q)
            | none => .error (.typeError "a number is required")
          else .error (.typeError "unexpected keyword argument"))
        (true, 2, 0)

/-- Python `ext[1:].upper()`, written over the string's character list so
that it evaluates by kernel reduction (the tags in play are ASCII). -/
def extUpper (s : String) : String :=
  ⟨(s.data.drop 1).map Char.toUpper⟩

/-- `utils.to_pil`: the OpenCV branch builds the Pillow image with
`format = ext[1:].upper()` (with `JPG` normalized to `JPEG`); a Pillow
input is returned unchanged; bytes and strings go through the external
`PIL.Image.open` (with the path-then-Base64 fallback of the source). -/
def to_pilV (K : ExtKernels) : PyVal → Except PyError PyVal
  | .cv i =>
      let fmt := extUpper i.ext
      .ok (.pil ⟨i.data, some (if fmt = "JPG" then "JPEG" else fmt)⟩)
  | .pil p => .ok (.pil p)
  | .bytes b =>
      match K.pilOpenBytes b with
      | some (d, f) => .ok (.pil ⟨d, f⟩)
      | none => .error (.valueError "cannot identify image file")
  | .str s =>
      match K.pilOpenPath s with
      | some (d, f) => .ok (.pil ⟨d, f⟩)
      | none =>
          match K.b64decodeK s with
          | none => .error (.valueError "Invalid path or Base64 string")
          | some buf =>
              match K.pilOpenBytes buf with
              | some (d, f) => .ok (.pil ⟨d, f⟩)
              | none => .error (.valueError "cannot identify image file")

/-- Conversion of a Pillow image into the canonical container inside
`utils.to_cv2`: `ext = '.' + obj.format` guarded by a bare `except`
(a `None` format falls back through `OpenCVImage.__new__`'s default). -/
def pil_to_cv2 (p : PILImage) : OpenCVImage :=
  OpenCVImage.new p.data (p.format.map (fun f => "." ++ f))

/-- Extension extraction of `os.path.splitext`: everything from the last
dot of the final path component (no dot gives the empty string). -/
def pathSplitextExt (s : String) : String :=
  let base := (s.splitOn "/").getLastD s
  let parts := base.splitOn "."
  if parts.length ≤ 1 then "" else "." ++ parts.getLastD ""

/-- Byte-signature sniff of `utils.to_cv2`: the first entry of
`SIGNATURE_MAP` whose magic prefix matches yields the extension. -/
def sniffExt (b : List Nat) : Option String :=
  (SIGNATURE_MAP.find? (fun kv => kv.2.isPrefixOf b)).map (fun kv => "." ++ kv.1)

/-- `utils.to_cv2`: an `OpenCVImage` is returned unchanged (identity
short-circuit); a Pillow image is wrapped with the format-derived tag;
a string is read as a path via `cv2.imread` (tag from the file
extension, BGR data swapped to RGB when 3-channel) with a Base64
fallback; bytes are decoded via `cv2.imdecode` after sniffing the tag
from the magic prefixes.  A failed `cv2.imdecode` returns Python `None`,
so the following `image.ndim` access raises `AttributeError`. -/
def to_cv2V (K : ExtKernels) : PyVal → Except PyError PyVal
  | .cv i => .ok (.cv i)
  | .pil p => .ok (.cv (pil_to_cv2 p))
  | .str s =>
      match K.imreadK s with
      | some d => .ok (.cv (OpenCVImage.new (swapRB d) (some (pathSplitextExt s))))
      | none =>
          match K.b64decodeK s with
          | none => .error (.valueError "Invalid path or Base64 string")
          | some buf =>
              match K.imdecodeK buf with
              | none => .error (.attributeError "ndim")
              | some d => .ok (.cv (OpenCVImage.new (swapRB d) (sniffExt buf)))
  | .bytes b =>
      match K.imdecodeK b with
      | none => .error (.attributeError "ndim")
      | some d => .ok (.cv (OpenCVImage.new (swapRB d) (sniffExt b)))

/-- `utils.to_bytes`: a string is read as a file with a Base64 fallback;
a container is converted RGB-to-BGR (which raises `cv2.error` on
single-channel data) and encoded with `cv2.imencode(obj.ext, ...)`;
a Pillow image is saved through `obj.save(b, obj.format)`; raw bytes are
returned unchanged (the `BytesIO`/`memoryview`/`bytearray` variants of
the source all normalize to the same byte list here). -/
def to_bytesV (K : ExtKernels) : PyVal → Except PyError PyVal
  | .str s =>
      match K.readFileK s with
      | some data => .ok (.bytes data)
      | none =>
          match K.b64decodeK s with
          | some data => .ok (.bytes data)
          | none => .error (.valueError "Invalid path or Base64 string")
  | .cv i =>
      match cvtColorRGB2BGR i.data with
      | .error e => .error e
      | .ok bgr =>
          match K.imencodeK i.ext bgr with
          | some buf => .ok (.bytes buf)
          | none => .error (.runtimeError "error calling cv2.imencode")
  | .pil p =>
      match K.pilSaveBytes p.format p.data with
      | some buf => .ok (.bytes buf)
      | none => .error (.valueError "cannot save image")
  | .bytes b => .ok (.bytes b)

/-- `utils.to_base64`: `base64.b64encode(to_bytes(obj)).decode('ascii')`. -/
def to_base64V (K : ExtKernels) (obj : PyVal) : Except PyError PyVal :=
  match to_bytesV K obj with
  | .ok (.bytes b) => .ok (.str (K.b64encodeK b))
  | .ok v => .ok v
  | .error e => .error e

/-- Image-type dispatch of `utils.threshold` at a call site
(`raise TypeError('Expect a Pillow or OpenCV image')` otherwise). -/
def thresholdV : PyVal → Rat → Except PyError PyVal
  | .cv i, v => .ok (.cv (threshold i v))
  | .pil p, v => .ok (.pil (pil_threshold p v))
  | _, _ => .error (.typeError "Expect a Pillow or OpenCV image")

/-- Image-type dispatch of `utils.invert`. -/
def invertV : PyVal → Except PyError PyVal
  | .cv i => .ok (.cv (invert i))
  | .pil p => .ok (.pil (pil_invert p))
  | _ => .error (.typeError "Expect a Pillow or OpenCV image")

/-- Image-type dispatch of `utils.greyscale`. -/
def greyscaleV : PyVal → Except PyError PyVal
  | .cv i => .ok (.cv (greyscale i))
  | .pil p => .ok (.pil (pil_greyscale p))
  | _ => .error (.typeError "Expect a Pillow or OpenCV image")

/-- Image-type dispatch of `utils.erode`. -/
def erodeV (K : ExtKernels) : PyVal → Option Int → Int → Except PyError PyVal
  | .cv i, r, it => .ok (.cv (erode K i r it))
  | .pil p, r, it => .ok (.pil (pil_erode K p r it))
  | _, _, _ => .error (.typeError "Expect a Pillow or OpenCV image")

/-- Image-type dispatch of `utils.dilate`. -/
def dilateV (K : ExtKernels) : PyVal → Option Int → Int → Except PyError PyVal
  | .cv i, r, it => .ok (.cv (dilate K i r it))
  | .pil p, r, it => .ok (.pil (pil_dilate K p r it))
  | _, _, _ => .error (.typeError "Expect a Pillow or OpenCV image")

/-- Image-type dispatch of `utils.gaussian_blur`. -/
def gaussian_blurV (K : ExtKernels) : PyVal → Option Int → Except PyError PyVal
  | .cv i, r => .ok (.cv (gaussian_blur K i r))
  | .pil p, r => .ok (.pil (pil_gaussian_blur K p r))
  | _, _ => .error (.typeError "Expect a Pillow or OpenCV image")

/-- Image-type dispatch of `utils.rotate` for image (not corner) inputs. -/
def rotateV (K : ExtKernels) : PyVal → Option Rat → Except PyError PyVal
  | .cv i, a => .ok (.cv (rotate K i a))
  | .pil p, a => .ok (.pil (pil_rotate K p a))
  | _, _ => .error (.typeError "Expect a Pillow or OpenCV image")

/-- Image-type dispatch of `utils.crop`. -/
def cropV (K : ExtKernels) : PyVal → PyNum → PyNum → PyNum → PyNum → Except PyError PyVal
  | .cv i, x, y, w, h => .ok (.cv (crop i x y w h))
  | .pil p, x, y, w, h => .ok (.pil (pil_crop K p x y w h))
  | _, _, _, _, _ => .error (.typeError "Expect a Pillow or OpenCV image")

/-- Image-type dispatch of `utils.adaptive_threshold`: the Pillow branch
re-enters the OpenCV branch through `to_pil(adaptive_threshold(to_cv2(image)))`
with the keyword-only arguments left at their defaults. -/
def adaptive_thresholdV (K : ExtKernels) : PyVal → Bool → Int → Rat → Except PyError PyVal
  | .cv i, um, r, c => .ok (.cv (adaptive_threshold_cv K i um r c))
  | .pil p, _, _, _ =>
      to_pilV K (.cv (adaptive_threshold_cv K (pil_to_cv2 p) true 2 0))
  | _, _, _, _ => .error (.typeError "Expect a Pillow or OpenCV image")

/-- The Python-callable wrapper of `utils.threshold` as `process` invokes
it: bind the call shape to the signature, coerce, dispatch. -/
def callThreshold (image : PyVal) (args : CallArgs) : Except PyError PyVal := do
  let v ← bindArg1 "value" args
  match v.toRat with
  | some q => thresholdV image q
  | none => .error (.typeError "not supported between instances")

/-- Python-callable wrapper of `utils.erode`. -/
def callErode (K : ExtKernels) (image : PyVal) (args : CallArgs) : Except PyError PyVal := do
  let (r, i) ← bindRadiusIterations args
  let radius ← r.toOptInt
  match i.toOptInt with
  | .ok (some iters) => erodeV K image radius iters
  | _ => .error (.typeError "an integer is required")

/-- Python-callable wrapper of `utils.dilate`. -/
def callDilate (K : ExtKernels) (image : PyVal) (args : CallArgs) : Except PyError PyVal := do
  let (r, i) ← bindRadiusIterations args
  let radius ← r.toOptInt
  match i.toOptInt with
  | .ok (some iters) => dilateV K image radius iters
  | _ => .error (.typeError "an integer is required")

/-- Python-callable wrapper of `utils.gaussian_blur`. -/
def callGaussianBlur (K : ExtKernels) (image : PyVal) (args : CallArgs) : Except PyError PyVal := do
  let r ← bindArg1 "radius" args
  let radius ← r.toOptInt
  gaussian_blurV K image radius

/-- Python-callable wrapper of `utils.rotate`. -/
def callRotate (K : ExtKernels) (image : PyVal) (args : CallArgs) : Except PyError PyVal := do
  let a ← bindArg1 "angle" args
  let angle ← a.toOptRat
  rotateV K image angle

/-- Python-callable wrapper of `utils.crop`. -/
def callCrop (K : ExtKernels) (image : PyVal) (args : CallArgs) : Except PyError PyVal := do
  let (x, y, w, h) ← bindCrop args
  cropV K image x y w h

/-- Python-callable wrapper of `utils.greyscale`. -/
def callGreyscale (image : PyVal) (args : CallArgs) : Except PyError PyVal := do
  let _ ← bindNoArgs args
  greyscaleV image

/-- Python-callable wrapper of `utils.invert`. -/
def callInvert (image : PyVal) (args : CallArgs) : Except PyError PyVal := do
  let _ ← bindNoArgs args
  invertV image

/-- Python-callable wrapper of `utils.adaptive_threshold`. -/
def callAdaptiveThreshold (K : ExtKernels) (image : PyVal) (args : CallArgs) :
    Except PyError PyVal := do
  let (um, r, c) ← bindAdaptive args
  adaptive_thresholdV K image um r c

/-- Python-callable wrapper of `utils.to_pil`. -/
def callToPil (K : ExtKernels) (image : PyVal) (args : CallArgs) : Except PyError PyVal := do
  let _ ← bindNoArgs args
  to_pilV K image

/-- Python-callable wrapper of `utils.to_cv2`. -/
def callToCv2 (K : ExtKernels) (image : PyVal) (args : CallArgs) : Except PyError PyVal := do
  let _ ← bindNoArgs args
  to_cv2V K image

/-- Python-callable wrapper of `utils.to_bytes`. -/
def callToBytes (K : ExtKernels) (image : PyVal) (args : CallArgs) : Except PyError PyVal := do
  let _ ← bindNoArgs args
  to_bytesV K image

/-- Python-callable wrapper of `utils.to_base64`. -/
def callToBase64 (K : ExtKernels) (image : PyVal) (args : CallArgs) : Except PyError PyVal := do
  let _ ← bindNoArgs args
  to_base64V K image

/-- Signature-level model of `utils.save(image, path, ...)`: a second
positional string argument is required; the image goes through `to_cv2`
and then through the same unconditional `cv2.cvtColor(..., COLOR_RGB2BGR)`
before `cv2.imwrite` (the filesystem write and the optional text banner
are external effects elided here); the converted container is returned. -/
def callSave (K : ExtKernels) (image : PyVal) (args : CallArgs) : Except PyError PyVal := do
  let p ← bindArg1 "path" args
  match p with
  | .str _ => do
      let c ← to_cv2V K image
      match c with
      | .cv i =>
          match cvtColorRGB2BGR i.data with
          | .ok _ => .ok (.cv i)
          | .error e => .error e
      | v => .ok v
  | _ => .error (.typeError "path must be a string")

/-- Signature-level model of `utils.get_executable_path(path, executable)`:
two string arguments resolved against the filesystem (external); failure
raises `FileNotFoundError`.  Called with an image as first argument the
path-expansion raises `TypeError`. -/
def callGetExecutablePath (K : ExtKernels) (image : PyVal) (args : CallArgs) :
    Except PyError PyVal := do
  let e ← bindArg1 "executable" args
  match image, e with
  | .str p, .str exe =>
      match K.fsResolveK p exe with
      | some full => .ok (.str full)
      | none => .error (.fileNotFoundError "Cannot find the executable")
  | _, _ => .error (.typeError "expected str, bytes or os.PathLike object")

/-- Behaviour of calling a module-level attribute that is not callable
(`logging.Logger` instance, dict, string constants, imported modules). -/
def callNotCallable (_image : PyVal) (_args : CallArgs) : Except PyError PyVal :=
  .error (.typeError "object is not callable")

/-- Behaviour of calling the `OpenCVImage` class itself:
`OpenCVImage(image)` re-wraps the array and resets the tag to the default
(`__new__` receives no `ext`). -/
def callOpenCVImageClass (image : PyVal) (args : CallArgs) : Except PyError PyVal := do
  let _ ← bindNoArgs args
  match image with
  | .cv i => .ok (.cv (OpenCVImage.new i.data none))
  | .pil p => .ok (.cv (OpenCVImage.new p.data none))
  | _ => .error (.typeError "cannot view object as OpenCVImage")

/-- Behaviour of calling a class or callable from the module namespace
whose signature cannot accept an image argument (`PIL.Image.Image`,
`BytesIO`, `msl.qt.convert.to_qcolor`). -/
def callWrongSignature (_image : PyVal) (_args : CallArgs) : Except PyError PyVal :=
  .error (.typeError "invalid argument")

/-- Module-level names of `ocr/utils.py` that resolve through `getattr`
but are not callable: imported modules, the signature map, the default
format constants and the module logger. -/
def utilsNonCallableNames : List String :=
  ["os", "sys", "base64", "logging", "cv2", "np", "Image", "ImageFilter",
   "ImageOps", "to_qcolor", "DEFAULT_IMAGE_FORMAT", "DEFAULT_FILE_EXTENSION",
   "SIGNATURE_MAP", "logger"]

/-- Reflective attribute lookup `getattr(utils, name)` performed by
`ocr.process`: the namespace of module `ocr/utils.py`, mapping every
module-level attribute to its call behaviour.  There is no `zoom`
attribute and no registry restricted to pipeline operations; any module
attribute resolves, and a missing attribute is an `AttributeError`. -/
def getattrUtils (K : ExtKernels) (name : String) :
    Option (PyVal → CallArgs → Except PyError PyVal) :=
  if name = "threshold" then some callThreshold
  else if name = "erode" then some (callErode K)
  else if name = "dilate" then some (callDilate K)
  else if name = "gaussian_blur" then some (callGaussianBlur K)
  else if name = "rotate" then some (callRotate K)
  else if name = "crop" then some (callCrop K)
  else if name = "greyscale" then some callGreyscale
  else if name = "invert" then some callInvert
  else if name = "adaptive_threshold" then some (callAdaptiveThreshold K)
  else if name = "to_pil" then some (callToPil K)
  else if name = "to_cv2" then some (callToCv2 K)
  else if name = "to_bytes" then some (callToBytes K)
  else if name = "to_base64" then some (callToBase64 K)
  else if name = "save" then some (callSave K)
  else if name = "get_executable_path" then some (callGetExecutablePath K)
  else if name = "OpenCVImage" then some callOpenCVImageClass
  else if name = "PillowImage" then some callWrongSignature
  else if name = "BytesIO" then some callWrongSignature
  else if name ∈ utilsNonCallableNames then some callNotCallable
  else none

/-- Task loop of `ocr.process`: for each `(name, value)` pair, skip
non-transform tasks when `transform_only` is set (the allowed names are
`crop` and `rotate`), otherwise resolve `name` reflectively against the
`utils` module and call the attribute with the shape dictated by the
value's type. -/
def processTasks (K : ExtKernels) (transform_only : Bool) :
    PyVal → List (String × TaskValue) → Except PyError PyVal
  | image, [] => .ok image
  | image, (name, value) :: rest =>
      if transform_only ∧ name ≠ "crop" ∧ name ≠ "rotate" then
        processTasks K transform_only image rest
      else
        match getattrUtils K name with
        | none => .error (.attributeError name)
        | some f =>
            match f image (taskArgs value) with
            | .ok image2 => processTasks K transform_only image2 rest
            | .error e => .error e

/-- `ocr.process(image, *, tasks=None, transform_only=False)`: the guard
`if not tasks: return image` short-circuits both `None` and an empty
task collection; a `dict` of tasks iterates as its item list, so both
spellings are embedded as the same association list. -/
def process (K : ExtKernels) (image : PyVal)
    (tasks : Option (List (String × TaskValue))) (transform_only : Bool) :
    Except PyError PyVal :=
  match tasks with
  | none => .ok image
  | some [] => .ok image
  | some items => processTasks K transform_only image items

/-- `ocr.apply(obj, *, tasks=None, algorithm='tesseract', **kwargs)` on an
image input (the `Camera`/`RemoteCamera` isinstance branches of the
source do not fire for image inputs): the image is canonicalized with
`to_cv2`, run through `process`, the backend `ALGORITHMS[algorithm]`
(a dict lookup raising `KeyError` on an unknown key, modelled by the
`algs` map) is applied to the processed image, and the pair
`(text, image)` is returned, where `image` is the unprocessed capture. -/
def apply (K : ExtKernels) (algs : String → Option (PyVal → String))
    (obj : PyVal) (tasks : Option (List (String × TaskValue)))
    (algorithm : String) : Except PyError (String × PyVal) :=
  match to_cv2V K obj with
  | .error e => .error e
  | .ok image =>
      match process K image tasks false with
      | .error e => .error e
      | .ok processed =>
          match algs algorithm with
          | some f => .ok (f processed, image)
          | none => .error (.keyError algorithm)

/-- `ocr.gui.get_intersection`: homogeneous-coordinate line intersection.
Each input point is lifted to `(x, y, 1)`, the two lines are the cross
products of their point pairs, their intersection is the cross product of
the lines, normalized by its third coordinate.  Rational division is
total with `z = 0` giving `0` where Python floats give `inf`/`nan`; every
instance evaluated in this file has `z` nonzero. -/
def get_intersection (a1 a2 b1 b2 : Rat × Rat) : Rat × Rat :=
  let cross3 : (Rat × Rat × Rat) → (Rat × Rat × Rat) → (Rat × Rat × Rat) :=
    fun u v =>
      (u.2.1 * v.2.2 - u.2.2 * v.2.1,
       u.2.2 * v.1 - u.1 * v.2.2,
       u.1 * v.2.1 - u.2.1 * v.1)
  let line1 := cross3 (a1.1, a1.2, 1) (a2.1, a2.2, 1)
  let line2 := cross3 (b1.1, b1.2, 1) (b2.1, b2.2, 1)
  let r := cross3 line1 line2
  (r.1 / r.2.2, r.2.1 / r.2.2)

/-- `ocr.gui.rotate_highlighted` at rotation angle 0: the axis-swap guard
`45 < abs(angle) < 135` is false, `theta = 0`, so `cos = 1` and `sin = 0`
make `rotate_point` the identity and no corner permutation happens; the
corners of the selection rectangle come back in their original order
`((x, y), (x+w, y), (x+w, y+h), (x, y+h))`. -/
def rotate_highlighted_zero (x y w h : Rat) :
    (Rat × Rat) × (Rat × Rat) × (Rat × Rat) × (Rat × Rat) :=
  ((x, y), (x + w, y), (x + w, y + h), (x, y + h))

/-- `ocr.gui.rotate_image_corners` at rotation angle 0: the source
short-circuits with `if angle == 0: return corners`. -/
def rotate_image_corners_zero (x y w h : Rat) :
    (Rat × Rat) × (Rat × Rat) × (Rat × Rat) × (Rat × Rat) :=
  ((x, y), (x + w, y), (x + w, y + h), (x, y + h))

/-- Clamp-and-normalize tail of `ocr.gui.rotate_zoom` (the code after the
four angle branches, through which every angle's branch output flows):
a negative `x` is clamped to 0 with `w += x` (symmetrically for `y`/`h`);
if the resulting width or height is negative, or `y > height`, or
`x > width`, the function returns `None` ("zoom outside of the image");
otherwise the rectangle is normalized by the recomputed width/height and
returned together with them. -/
def rotate_zoom_clamp (x y w h width height : Rat) :
    Option (Rat × Rat × Rat × Rat × Rat × Rat) :=
  let xc := if x < 0 then (0 : Rat) else x
  let wc := if x < 0 then x + w else w
  let yc := if y < 0 then (0 : Rat) else y
  let hc := if y < 0 then y + h else h
  if wc < 0 ∨ hc < 0 ∨ yc > height ∨ xc > width then none
  else some (xc / width, yc / height, wc / width, hc / height, width, height)

/-- `ocr.gui.rotate_zoom` at rotation angle 0, exactly over the
rationals: the selection corners and image corners are unrotated, the
`-45 <= angle <= 45` branch applies, and the recomputed Euclidean
width/height `sqrt((c1x-c0x)^2 + (c1y-c0y)^2)` collapse to absolute
values because the corner differences have a zero component at angle 0. -/
def rotate_zoom_zero (rx ry rw rh width height : Rat) :
    Option (Rat × Rat × Rat × Rat × Rat × Rat) :=
  match rotate_highlighted_zero rx ry rw rh,
        rotate_image_corners_zero 0 0 width height with
  | (r0, r1, _r2, r3), (c0, c1, _c2, c3) =>
    let inter_top := get_intersection c0 c1 r0 r3
    let inter_bottom := get_intersection _c2 c3 r0 r3
    let x := inter_top.1 - c0.1
    let y := r0.2 - inter_top.2
    let w := min r1.1 c1.1 - r0.1
    let h := min r3.2 inter_bottom.2 - r0.2
    let width := |c1.1 - c0.1|
    let height := |c3.2 - c0.2|
    rotate_zoom_clamp x y w h width height

/-- Pixel width of the canvas handed to `rotate_zoom` by
`Gui.select_zoom`: the original width, shrunk by the current zoom-history
top with `width = int(zoom_history[-1][2] * width)`. -/
def zoomedW (origW : Nat) (top : Option (Rat × Rat × Rat × Rat)) : Rat :=
  match top with
  | some (_, _, w2, _) => (truncInt (w2 * origW) : Rat)
  | none => origW

/-- Pixel height of the canvas handed to `rotate_zoom` by
`Gui.select_zoom` (`height = int(zoom_history[-1][3] * height)`). -/
def zoomedH (origH : Nat) (top : Option (Rat × Rat × Rat × Rat)) : Rat :=
  match top with
  | some (_, _, _, h2) => (truncInt (h2 * origH) : Rat)
  | none => origH

/-- The zoom-selection path of `Gui.select_zoom` at rotation angle 0:
compute the (possibly zoomed) canvas size, run `rotate_zoom`, ignore the
request when it returns `None`, and otherwise compose with the
zoom-history top `(x2, y2, w2, h2)` by
`x = x * width / orig_width + x2`, `y = y * height / orig_height + y2`,
`w *= w2`, `h *= h2`, where `width`/`height` are the recomputed values
returned by `rotate_zoom`. -/
def select_zoom_zero (origW origH : Nat) (top : Option (Rat × Rat × Rat × Rat))
    (rx ry rw rh : Rat) : Option (Rat × Rat × Rat × Rat) :=
  match rotate_zoom_zero rx ry rw rh (zoomedW origW top) (zoomedH origH top) with
  | none => none
  | some (x, y, w, h, width, height) =>
      match top with
      | some (x2, y2, w2, h2) =>
          some (x * width / origW + x2, y * height / origH + y2, w * w2, h * h2)
      | none => some (x, y, w, h)

/-- An item of the per-preview dispatch queue of
`ocr/gui/roi_preview.py`: the 4-tuple
`(function, image, algorithm, parameters)` put by `ROIPreview.apply_ocr`,
or the shutdown sentinel `(None, None, None, None)` put by `closeEvent`
(detected by the worker with `if not function: break`).  The backend
callable is carried directly; it returns the `(text, image)` pair the
worker unpacks, or an error standing for a raised exception. -/
inductive QueueItem where
  | sentinel
  | request
      (function : PyVal → String → List (String × PyScalar) → Except PyError (String × PyVal))
      (image : PyVal)
      (algorithm : String)
      (parameters : List (String × PyScalar))

/-- Producer-side drain loop of `ROIPreview.apply_ocr`:
`while not self.queue.empty(): self.queue.get()` removes every queued,
not-yet-started request. -/
def drainQueue : List QueueItem → List QueueItem
  | [] => []
  | _ :: rest => drainQueue rest

/-- One producer trigger in `ROIPreview.apply_ocr`: drain the queue, then
`self.queue.put((function, image, widget.name, params))`. -/
def apply_ocr_enqueue (queue : List QueueItem) (item : QueueItem) : List QueueItem :=
  drainQueue queue ++ [item]

/-- Emission trace of the `OCRWorker.process` loop over the queue
contents: blocking `get`, `break` on the sentinel, otherwise
`text, _ = function(image, algorithm=algorithm, **parameters)` guarded by
`except BaseException` which downgrades any raised error to the empty
string; each iteration ends with `self.sig_ocr_text.emit(text)`. -/
def workerEmits : List QueueItem → List String
  | [] => []
  | .sentinel :: _ => []
  | .request f image algorithm parameters :: rest =>
      (match f image algorithm parameters with
       | .ok (text, _) => text
       | .error _ => "") :: workerEmits rest

/-- The requests the worker loop actually hands to a backend, in order
(everything before the first sentinel). -/
def workerInvoked : List QueueItem → List QueueItem
  | [] => []
  | .sentinel :: _ => []
  | r :: rest => r :: workerInvoked rest

/-- Decidable equality for `Except`, used to evaluate embedded calls on
concrete inputs. -/
instance instDecEqExcept {ε α : Type} [DecidableEq ε] [DecidableEq α] :
    DecidableEq (Except ε α) := fun x y =>
  match x, y with
  | .ok a, .ok b =>
      if h : a = b then .isTrue (congrArg Except.ok h)
      else .isFalse (fun hh => h (Except.ok.inj hh))
  | .error a, .error b =>
      if h : a = b then .isTrue (congrArg Except.error h)
      else .isFalse (fun hh => h (Except.error.inj hh))
  | .ok _, .error _ => .isFalse (fun hh => Except.noConfusion hh)
  | .error _, .ok _ => .isFalse (fun hh => Except.noConfusion hh)

/-- A constant backend table standing for `ALGORITHMS` in concrete
evaluations: every algorithm name maps to an engine returning "42". -/
def constAlgs : String → Option (PyVal → String) := fun _ => some (fun _ => "42")

/-- Concrete single-pixel greyscale container used in concrete
evaluations. -/
def imgC1 : OpenCVImage := ⟨.grey [[7]], ".png"⟩

/-- The image `imgC1` after `invert`. -/
def imgC1inv : OpenCVImage := ⟨.grey [[248]], ".png"⟩

/-- Concrete colour container used in idempotence evaluations. -/
def imgC9 : OpenCVImage := ⟨.color [[(1, 2, 200)], [(250, 0, 17)]], ".bmp"⟩

/-- Concrete greyscale Pillow image used in idempotence evaluations. -/
def pilC9 : PILImage := ⟨.grey [[0, 255, 100]], some "PNG"⟩

/-- A backend whose invocation always raises, standing for any failing
recognition engine in concrete evaluations. -/
def failingBackend : PyVal → String → List (String × PyScalar) → Except PyError (String × PyVal) :=
  fun _ _ _ => .error (.runtimeError "backend failure")

theorem drainQueue_eq_nil (q : List QueueItem) : drainQueue q = [] := by
  induction q with
  | nil => rfl
  | cons a t ih => simpa [drainQueue] using ih

theorem list_all_map_congr {α β : Type} (f g : α → β) (P : α → Bool)
    (l : List α) (hall : l.all P = true) (hfg : ∀ a, P a = true → f a = g a) :
    l.map f = l.map g := by
  induction l with
  | nil => rfl
  | cons a t ih =>
      rw [List.all_cons, Bool.and_eq_true] at hall
      simp only [List.map_cons]
      rw [hfg a hall.1, ih hall.2]

theorem list_all_map_id {α : Type} (f : α → α) (P : α → Bool)
    (l : List α) (hall : l.all P = true) (hf : ∀ a, P a = true → f a = a) :
    l.map f = l := by
  induction l with
  | nil => rfl
  | cons a t ih =>
      rw [List.all_cons, Bool.and_eq_true] at hall
      simp only [List.map_cons]
      rw [hf a hall.1, ih hall.2]

theorem mapPixels_mapPixels (f g : Nat → Nat) (d : PixelData) :
    (d.mapPixels g).mapPixels f = d.mapPixels (fun p => f (g p)) := by
  cases d <;> simp [PixelData.mapPixels, List.map_map, Function.comp_def]

theorem mapPixels_congr_valid (f g : Nat → Nat) (d : PixelData)
    (hd : d.validb = true) (h : ∀ p, p ≤ 255 → f p = g p) :
    d.mapPixels f = d.mapPixels g := by
  cases d with
  | grey rows =>
      simp only [PixelData.mapPixels, PixelData.validb] at hd ⊢
      refine congrArg PixelData.grey ?_
      refine list_all_map_congr _ _ _ rows hd (fun r hr => ?_)
      exact list_all_map_congr f g _ r hr (fun a ha => h a (by simpa using ha))
  | color rows =>
      simp only [PixelData.mapPixels, PixelData.validb] at hd ⊢
      refine congrArg PixelData.color ?_
      refine list_all_map_congr _ _ _ rows hd (fun r hr => ?_)
      refine list_all_map_congr _ _ _ r hr (fun t ht => ?_)
      have h1 : (t.1 ≤ 255 ∧ t.2.1 ≤ 255) ∧ t.2.2 ≤ 255 := by
        simpa [Bool.and_eq_true] using ht
      rw [h t.1 h1.1.1, h t.2.1 h1.1.2, h t.2.2 h1.2]

theorem mapPixels_id_valid (f : Nat → Nat) (d : PixelData)
    (hd : d.validb = true) (h : ∀ p, p ≤ 255 → f p = p) :
    d.mapPixels f = d := by
  cases d with
  | grey rows =>
      simp only [PixelData.mapPixels, PixelData.validb] at hd ⊢
      refine congrArg PixelData.grey ?_
      refine list_all_map_id _ _ rows hd (fun r hr => ?_)
      exact list_all_map_id f _ r hr (fun a ha => h a (by simpa using ha))
  | color rows =>
      simp only [PixelData.mapPixels, PixelData.validb] at hd ⊢
      refine congrArg PixelData.color ?_
      refine list_all_map_id _ _ rows hd (fun r hr => ?_)
      refine list_all_map_id _ _ r hr (fun t ht => ?_)
      have h1 : (t.1 ≤ 255 ∧ t.2.1 ≤ 255) ∧ t.2.2 ≤ 255 := by
        simpa [Bool.and_eq_true] using ht
      obtain ⟨a, b, c⟩ := t
      simp only at h1 ⊢
      rw [h a h1.1.1, h b h1.1.2, h c h1.2]

theorem thresholdPixel_stable (v : Rat) (p : Nat) (hp : p ≤ 255) (hv0 : 0 ≤ v) :
    thresholdPixel v (thresholdPixel v p) = thresholdPixel v p := by
  unfold thresholdPixel
  split_ifs with h1 h2 h3
  · rfl
  · exact absurd (lt_of_lt_of_le h1 (by exact_mod_cast hp)) h2
  · exact absurd h3 (by push_neg; exact_mod_cast hv0)
  · rfl

theorem invertPixel_invol (p : Nat) (hp : p ≤ 255) :
    invertPixel (invertPixel p) = p := by
  unfold invertPixel
  omega

/-- Claim C1, as stated, is false at a concrete input: with a one-task
`invert` pipeline, `apply` returns the pair `(text, image)` where the
image component is the original unprocessed capture and not the image
after the task pipeline (the source's own docstring says
"The original (unprocessed) image"). -/
theorem apply_returns_original_counterexample :
    apply trivialKernels constAlgs (.cv imgC1) (some [("invert", .tnone)]) "tesseract"
      = .ok ("42", .cv imgC1)
  ∧ process trivialKernels (.cv imgC1) (some [("invert", .tnone)]) false
      = .ok (.cv imgC1inv)
  ∧ (PyVal.cv imgC1inv) ≠ (PyVal.cv imgC1) :=
  ⟨rfl, rfl, by decide⟩

/-- Claim C1, amended: for every image input, task list and algorithm,
`apply` returns the recognized text computed from the processed image
together with the ORIGINAL (unprocessed) image; the processed image is
used only as the backend's input and is not returned. -/
theorem apply_returns_text_and_original_image (K : ExtKernels)
    (algs : String → Option (PyVal → String)) (f : PyVal → String)
    (img : OpenCVImage) (tasks : Option (List (String × TaskValue)))
    (algorithm : String) (p : PyVal)
    (halg : algs algorithm = some f)
    (hp : process K (.cv img) tasks false = .ok p) :
    apply K algs (.cv img) tasks algorithm = .ok (f p, .cv img) := by
  unfold apply
  simp [to_cv2V, hp, halg]

/-- Witness for the amended claim C1 at a concrete input. -/
theorem apply_returns_text_and_original_image_witness :
    apply trivialKernels constAlgs (.cv imgC1) (some [("invert", .tnone)]) "ssocr"
      = .ok ("42", .cv imgC1) :=
  apply_returns_text_and_original_image trivialKernels constAlgs (fun _ => "42")
    imgC1 (some [("invert", .tnone)]) "ssocr" (.cv imgC1inv) rfl rfl

/-- Claim C2: every pure transform of the canonical container (crop,
rotate, threshold, dilate, erode, gaussian_blur, greyscale, invert,
adaptive_threshold) preserves the container's format tag `ext`
unchanged, for every container, every parameter value and every
behaviour of the external pixel kernels; the tag is only assigned at
construction and re-attached verbatim by each transform. -/
theorem format_tag_preserved (K : ExtKernels) :
    (∀ (img : OpenCVImage) (x y w h : PyNum), (crop img x y w h).ext = img.ext)
  ∧ (∀ (img : OpenCVImage) (angle : Option Rat), (rotate K img angle).ext = img.ext)
  ∧ (∀ (img : OpenCVImage) (v : Rat), (threshold img v).ext = img.ext)
  ∧ (∀ (img : OpenCVImage) (r : Option Int) (i : Int), (dilate K img r i).ext = img.ext)
  ∧ (∀ (img : OpenCVImage) (r : Option Int) (i : Int), (erode K img r i).ext = img.ext)
  ∧ (∀ (img : OpenCVImage) (r : Option Int), (gaussian_blur K img r).ext = img.ext)
  ∧ (∀ (img : OpenCVImage), (greyscale img).ext = img.ext)
  ∧ (∀ (img : OpenCVImage), (invert img).ext = img.ext)
  ∧ (∀ (img : OpenCVImage) (um : Bool) (r : Int) (c : Rat),
       (adaptive_threshold_cv K img um r c).ext = img.ext) := by
  refine ⟨fun img x y w h => rfl, ?_, fun img v => rfl, ?_, ?_, ?_, ?_, fun img => rfl, ?_⟩
  · intro img angle
    cases angle with
    | none => rfl
    | some a => simp only [rotate]; split <;> rfl
  · intro img r i
    cases r with
    | none => rfl
    | some rr => simp only [dilate]; split <;> rfl
  · intro img r i
    cases r with
    | none => rfl
    | some rr => simp only [erode]; split <;> rfl
  · intro img r
    cases r with
    | none => rfl
    | some rr => simp only [gaussian_blur]; split <;> rfl
  · intro img
    cases img with
    | mk d e => cases d <;> rfl
  · intro img um r c
    cases img with
    | mk d e => cases d <;> rfl

/-- Claim C3, as stated, is false: `process` resolves task names with
`getattr` against the whole `utils` module, not a closed ten-operation
registry.  At a concrete input the non-pipeline conversion `to_pil` is
resolved and executed without any error, and the documented pipeline
name `zoom` is not resolvable at all. -/
theorem process_closed_registry_counterexample :
    process trivialKernels (.cv imgC1) (some [("to_pil", .tnone)]) false
      = .ok (.pil ⟨.grey [[7]], some "PNG"⟩)
  ∧ getattrUtils trivialKernels "zoom" = none :=
  ⟨rfl, rfl⟩

/-- Claim C3, amended: `process` resolves each task name reflectively
against the namespace of the `utils` module; a name with no module
attribute fails with `AttributeError` (not a dedicated
UnknownOperation/InvalidInput error), and any name that is a module
attribute — pipeline operation or not — has that attribute called on the
image. -/
theorem process_reflective_dispatch (K : ExtKernels) (image : PyVal)
    (name : String) (value : TaskValue) (rest : List (String × TaskValue)) :
    (getattrUtils K name = none →
      process K image (some ((name, value) :: rest)) false
        = .error (.attributeError name))
  ∧ (∀ g, getattrUtils K name = some g →
      process K image (some ((name, value) :: rest)) false
        = match g image (taskArgs value) with
          | .ok image2 => processTasks K false image2 rest
          | .error e => .error e) := by
  constructor
  · intro h
    simp [process, processTasks, h]
  · intro g h
    simp [process, processTasks, h]

/-- Witness for the amended claim C3: the documented operation name
`zoom` is not an attribute of `utils`, so `process` raises
`AttributeError` for it. -/
theorem process_reflective_dispatch_witness :
    process trivialKernels (.cv imgC1) (some [("zoom", .scalar (.int 1))]) false
      = .error (.attributeError "zoom") :=
  (process_reflective_dispatch trivialKernels (.cv imgC1) "zoom"
    (.scalar (.int 1)) []).1 rfl

/-- Claim C4: every producer trigger drains all queued, not-yet-started
requests before enqueueing its own, so any number of triggers arriving
before the worker dequeues leaves exactly the last request in the queue;
the worker then performs exactly one backend invocation, with the last
trigger's parameters, and the superseded requests are never executed. -/
theorem coalescing_last_request_wins (queue rs : List QueueItem)
    (f : PyVal → String → List (String × PyScalar) → Except PyError (String × PyVal))
    (image : PyVal) (algorithm : String) (parameters : List (String × PyScalar)) :
    List.foldl apply_ocr_enqueue queue
        (rs ++ [QueueItem.request f image algorithm parameters])
      = [QueueItem.request f image algorithm parameters]
  ∧ workerInvoked
      (List.foldl apply_ocr_enqueue queue
         (rs ++ [QueueItem.request f image algorithm parameters])
       ++ [QueueItem.sentinel])
      = [QueueItem.request f image algorithm parameters]
  ∧ workerEmits
      (List.foldl apply_ocr_enqueue queue
         (rs ++ [QueueItem.request f image algorithm parameters])
       ++ [QueueItem.sentinel])
      = [match f image algorithm parameters with
         | .ok (text, _) => text
         | .error _ => ""] := by
  have hfold : List.foldl apply_ocr_enqueue queue
      (rs ++ [QueueItem.request f image algorithm parameters])
      = [QueueItem.request f image algorithm parameters] := by
    rw [List.foldl_append]
    simp [apply_ocr_enqueue, drainQueue_eq_nil]
  refine ⟨hfold, ?_, ?_⟩
  · rw [hfold]; rfl
  · rw [hfold]; rfl

/-- Claim C5: when the worker dequeues a non-sentinel request whose
backend invocation raises, the `except BaseException` handler downgrades
the error to the empty string, emits it, and the loop continues with the
remaining queue items; the error neither propagates nor terminates the
worker. -/
theorem worker_downgrades_backend_errors
    (f : PyVal → String → List (String × PyScalar) → Except PyError (String × PyVal))
    (image : PyVal) (algorithm : String) (parameters : List (String × PyScalar))
    (rest : List QueueItem) (e : PyError)
    (h : f image algorithm parameters = .error e) :
    workerEmits (QueueItem.request f image algorithm parameters :: rest)
      = "" :: workerEmits rest := by
  simp [workerEmits, h]

/-- Witness for claim C5 at a concrete failing backend. -/
theorem worker_downgrades_backend_errors_witness :
    workerEmits (QueueItem.request failingBackend (.str "img") "ssocr" []
        :: [QueueItem.sentinel])
      = "" :: workerEmits [QueueItem.sentinel] :=
  worker_downgrades_backend_errors failingBackend (.str "img") "ssocr" []
    [QueueItem.sentinel] (.runtimeError "backend failure") rfl

theorem rotate_zoom_clamp_dims (x y w h W H a b c d Wr Hr : Rat)
    (hz : rotate_zoom_clamp x y w h W H = some (a, b, c, d, Wr, Hr)) :
    Wr = W ∧ Hr = H := by
  unfold rotate_zoom_clamp at hz
  dsimp only at hz
  repeat' split at hz
  all_goals cases hz
  all_goals exact ⟨rfl, rfl⟩

theorem rotate_zoom_zero_dims (rx ry rw rh W H x y w h Wr Hr : Rat)
    (hz : rotate_zoom_zero rx ry rw rh W H = some (x, y, w, h, Wr, Hr)) :
    Wr = |W| ∧ Hr = |H| := by
  unfold rotate_zoom_zero rotate_highlighted_zero rotate_image_corners_zero at hz
  dsimp only at hz
  obtain ⟨hW', hH'⟩ := rotate_zoom_clamp_dims _ _ _ _ _ _ _ _ _ _ _ _ hz
  have e1 : (0 : Rat) + W - 0 = W := by ring
  have e2 : (0 : Rat) + H - 0 = H := by ring
  constructor
  · rw [hW', e1]
  · rw [hH', e2]

/-- Claim C6, as stated, is false at a concrete input: with original
frame 641 x 480 and zoom-history top (1/4, 1/4, 1/2, 1/2), a selection
covering the middle right quarter of the zoomed preview maps to the
fractional rectangle (1/2, 1/4, 1/2, 1/2), but `select_zoom` composes
its x through `x * width / orig_width + x2` with the truncated preview
width 320 = int(641/2), giving 160/641 + 1/4, which differs from the
claimed x*w2 + x2 = 1/2; the width and height components do compose
exactly as w*w2 and h*h2. -/
theorem select_zoom_composition_counterexample :
    rotate_zoom_zero 160 60 160 120 (zoomedW 641 (some (1/4, 1/4, 1/2, 1/2)))
        (zoomedH 480 (some (1/4, 1/4, 1/2, 1/2)))
      = some (1/2, 1/4, 1/2, 1/2, 320, 240)
  ∧ select_zoom_zero 641 480 (some (1/4, 1/4, 1/2, 1/2)) 160 60 160 120
      = some (1281/2564, 3/8, 1/4, 1/4)
  ∧ ((1281 : Rat)/2564) ≠ (1/2) * (1/2) + (1/4) :=
  ⟨by decide, by decide, by decide⟩

/-- Claim C6, amended: at rotation angle 0, the nested-zoom composition
of `select_zoom` is `x_abs = x * (width / orig_width) + x2` (and
analogously for y) with `width` the recomputed zoomed-preview width
`int(w2 * orig_width)`, while `w_abs = w * w2` and `h_abs = h * h2`
always hold exactly.  When `w2 * orig_width` and `h2 * orig_height` are
integers (so that the `int()` truncation is exact), the composition
coincides with the claimed affine nesting
`(x*w2 + x2, y*h2 + y2, w*w2, h*h2)`; in particular zooming twice with
(1/4, 1/4, 1/2, 1/2) on a 640 x 480 frame yields the absolute window
(3/8, 3/8, 1/4, 1/4). -/
theorem select_zoom_nested_composition (origW origH : Nat)
    (x2 y2 w2 h2 rx ry rw rh x y w h width height : Rat)
    (hW : 0 < (origW : Rat)) (hH : 0 < (origH : Rat))
    (hw2 : 0 ≤ w2) (hh2 : 0 ≤ h2)
    (hiw : ((truncInt (w2 * origW) : Int) : Rat) = w2 * origW)
    (hih : ((truncInt (h2 * origH) : Int) : Rat) = h2 * origH)
    (hz : rotate_zoom_zero rx ry rw rh (zoomedW origW (some (x2, y2, w2, h2)))
            (zoomedH origH (some (x2, y2, w2, h2)))
          = some (x, y, w, h, width, height)) :
    select_zoom_zero origW origH (some (x2, y2, w2, h2)) rx ry rw rh
      = some (x * w2 + x2, y * h2 + y2, w * w2, h * h2) := by
  obtain ⟨hWr, hHr⟩ := rotate_zoom_zero_dims _ _ _ _ _ _ _ _ _ _ _ _ hz
  have hzw : zoomedW origW (some (x2, y2, w2, h2)) = w2 * origW := by
    simp only [zoomedW]
    exact hiw
  have hzh : zoomedH origH (some (x2, y2, w2, h2)) = h2 * origH := by
    simp only [zoomedH]
    exact hih
  have hwidth : width = w2 * (origW : Rat) := by
    rw [hWr, hzw]
    exact abs_of_nonneg (mul_nonneg hw2 (le_of_lt hW))
  have hheight : height = h2 * (origH : Rat) := by
    rw [hHr, hzh]
    exact abs_of_nonneg (mul_nonneg hh2 (le_of_lt hH))
  have e1 : x * (w2 * (origW : Rat)) / (origW : Rat) = x * w2 := by
    field_simp [ne_of_gt hW]
    ring
  have e2 : y * (h2 * (origH : Rat)) / (origH : Rat) = y * h2 := by
    field_simp [ne_of_gt hH]
    ring
  unfold select_zoom_zero
  rw [hz]
  dsimp only
  rw [hwidth, hheight, e1, e2]

/-- Witness for the amended claim C6: the double-zoom example at a
640 x 480 frame, where the truncations are exact. -/
theorem select_zoom_nested_composition_witness :
    select_zoom_zero 640 480 (some (1/4, 1/4, 1/2, 1/2)) 80 60 160 120
      = some (3/8, 3/8, 1/4, 1/4) := by
  have h := select_zoom_nested_composition 640 480 (1/4) (1/4) (1/2) (1/2)
    80 60 160 120 (1/4) (1/4) (1/2) (1/2) 320 240
    (by decide) (by decide) (by decide) (by decide) (by decide) (by decide)
    (by decide)
  rw [h]
  decide

theorem rotate_zoom_clamp_none_iff (x y w h width height : Rat) :
    rotate_zoom_clamp x y w h width height = none ↔
      ((if x < 0 then x + w else w) < 0 ∨ (if y < 0 then y + h else h) < 0
       ∨ (if y < 0 then (0 : Rat) else y) > height
       ∨ (if x < 0 then (0 : Rat) else x) > width) := by
  unfold rotate_zoom_clamp
  dsimp only
  split_ifs <;> simp_all

/-- Claim C7: the tail of `rotate_zoom`, through which every angle
branch's output flows, clamps a negative `x` (resp. `y`) to 0 while
shrinking the width (resp. height) by the overshoot, returns the
empty-selection result `None` exactly when the clamped width or height
is negative or the clamped rectangle starts beyond the frame, in
particular whenever the selection lies fully outside
`[0, width] x [0, height]`; and a `None` geometry result makes
`select_zoom` ignore the zoom request instead of crashing. -/
theorem rotate_zoom_clamp_spec (x y w h width height : Rat) :
    (x < 0 → rotate_zoom_clamp x y w h width height
       = rotate_zoom_clamp 0 y (x + w) h width height)
  ∧ (y < 0 → rotate_zoom_clamp x y w h width height
       = rotate_zoom_clamp x 0 w (y + h) width height)
  ∧ (rotate_zoom_clamp x y w h width height = none ↔
      ((if x < 0 then x + w else w) < 0 ∨ (if y < 0 then y + h else h) < 0
       ∨ (if y < 0 then (0 : Rat) else y) > height
       ∨ (if x < 0 then (0 : Rat) else x) > width))
  ∧ ((x > width ∨ y > height ∨ x + w < 0 ∨ y + h < 0) →
       rotate_zoom_clamp x y w h width height = none)
  ∧ (∀ (origW origH : Nat) (top : Option (Rat × Rat × Rat × Rat)),
       rotate_zoom_zero x y w h (zoomedW origW top) (zoomedH origH top) = none →
       select_zoom_zero origW origH top x y w h = none) := by
  refine ⟨?_, ?_, rotate_zoom_clamp_none_iff x y w h width height, ?_, ?_⟩
  · intro hx
    unfold rotate_zoom_clamp
    simp only [if_pos hx, if_neg (lt_irrefl (0 : Rat)), zero_add]
  · intro hy
    unfold rotate_zoom_clamp
    simp only [if_pos hy, if_neg (lt_irrefl (0 : Rat)), zero_add]
  · intro hout
    rw [rotate_zoom_clamp_none_iff]
    rcases lt_or_le x 0 with hx | hx
    · rcases lt_or_le y 0 with hy | hy
      · simp only [if_pos hx, if_pos hy]
        rcases hout with hc | hc | hc | hc <;>
          first
            | (left; linarith)
            | (right; left; linarith)
            | (right; right; left; linarith)
            | (right; right; right; linarith)
      · simp only [if_pos hx, if_neg (not_lt.mpr hy)]
        rcases hout with hc | hc | hc | hc <;>
          first
            | (left; linarith)
            | (right; left; linarith)
            | (right; right; left; linarith)
            | (right; right; right; linarith)
    · rcases lt_or_le y 0 with hy | hy
      · simp only [if_neg (not_lt.mpr hx), if_pos hy]
        rcases hout with hc | hc | hc | hc <;>
          first
            | (left; linarith)
            | (right; left; linarith)
            | (right; right; left; linarith)
            | (right; right; right; linarith)
      · simp only [if_neg (not_lt.mpr hx), if_neg (not_lt.mpr hy)]
        rcases hout with hc | hc | hc | hc <;>
          first
            | (left; linarith)
            | (right; left; linarith)
            | (right; right; left; linarith)
            | (right; right; right; linarith)
  · intro origW origH top hnone
    unfold select_zoom_zero
    rw [hnone]

/-- Witness for claim C7 at concrete inputs: a selection overshooting the
left edge is clamped, and a selection fully beyond the right edge is
reported as the empty-selection result. -/
theorem rotate_zoom_clamp_spec_witness :
    rotate_zoom_clamp (-2) 3 5 4 10 10 = rotate_zoom_clamp 0 3 ((-2) + 5) 4 10 10
  ∧ rotate_zoom_clamp 20 0 2 2 10 10 = none :=
  ⟨(rotate_zoom_clamp_spec (-2) 3 5 4 10 10).1 (by decide),
   (rotate_zoom_clamp_spec 20 0 2 2 10 10).2.2.2.1 (by decide)⟩

/-- Claim C8 evaluated on the code: for every single-channel (2-D,
channel-less) container, `to_bytes` raises `cv2.error` out of the
unconditional `cv2.cvtColor(obj, code=cv2.COLOR_RGB2BGR)` instead of
encoding the data, for every extension tag and every behaviour of the
encoder — so re-encoding a greyscale container never succeeds even
though the repository's own tests (`test_utils.test_to_bytes` on the
greyscale JPEG fixture) expect it to. -/
theorem to_bytes_single_channel_raises (K : ExtKernels)
    (rows : List (List Nat)) (ext : String) :
    to_bytesV K (.cv ⟨.grey rows, ext⟩)
      = .error (.cvError "Invalid number of channels in input image") := rfl

/-- Claim C9: greyscale conversion is idempotent, inversion is an exact
involution, and thresholding at a fixed value in [0, 255] is stable
under repetition, for every valid (uint8) container in either
representation. -/
theorem transform_idempotence (img : OpenCVImage) (p : PILImage) (v : Rat)
    (himg : img.data.validb = true) (hpil : p.data.validb = true)
    (hv0 : 0 ≤ v) (_hv255 : v ≤ 255) :
    greyscale (greyscale img) = greyscale img
  ∧ invert (invert img) = img
  ∧ threshold (threshold img v) v = threshold img v
  ∧ pil_greyscale (pil_greyscale p) = pil_greyscale p
  ∧ pil_invert (pil_invert p) = p
  ∧ pil_threshold (pil_threshold p v) v = pil_threshold p v := by
  obtain ⟨d, e⟩ := img
  obtain ⟨pd, pf⟩ := p
  refine ⟨?_, ?_, ?_, ?_, ?_, ?_⟩
  · cases d <;> rfl
  · have hdata : (d.mapPixels invertPixel).mapPixels invertPixel = d := by
      rw [mapPixels_mapPixels]
      exact mapPixels_id_valid _ d himg invertPixel_invol
    show OpenCVImage.mk ((d.mapPixels invertPixel).mapPixels invertPixel) e
      = OpenCVImage.mk d e
    rw [hdata]
  · have hdata : (d.mapPixels (thresholdPixel v)).mapPixels (thresholdPixel v)
        = d.mapPixels (thresholdPixel v) := by
      rw [mapPixels_mapPixels]
      exact mapPixels_congr_valid _ _ d himg
        (fun q hq => thresholdPixel_stable v q hq hv0)
    show OpenCVImage.mk
        ((d.mapPixels (thresholdPixel v)).mapPixels (thresholdPixel v)) e
      = OpenCVImage.mk (d.mapPixels (thresholdPixel v)) e
    rw [hdata]
  · cases pd <;> rfl
  · have hdata : (pd.mapPixels invertPixel).mapPixels invertPixel = pd := by
      rw [mapPixels_mapPixels]
      exact mapPixels_id_valid _ pd hpil invertPixel_invol
    show PILImage.mk ((pd.mapPixels invertPixel).mapPixels invertPixel) pf
      = PILImage.mk pd pf
    rw [hdata]
  · have hdata : (pd.mapPixels (thresholdPixel v)).mapPixels (thresholdPixel v)
        = pd.mapPixels (thresholdPixel v) := by
      rw [mapPixels_mapPixels]
      exact mapPixels_congr_valid _ _ pd hpil
        (fun q hq => thresholdPixel_stable v q hq hv0)
    show PILImage.mk
        ((pd.mapPixels (thresholdPixel v)).mapPixels (thresholdPixel v)) pf
      = PILImage.mk (pd.mapPixels (thresholdPixel v)) pf
    rw [hdata]

/-- Witness for claim C9 at a concrete colour container, a concrete
greyscale Pillow image and threshold value 100. -/
theorem transform_idempotence_witness :
    greyscale (greyscale imgC9) = greyscale imgC9
  ∧ invert (invert imgC9) = imgC9
  ∧ threshold (threshold imgC9 100) 100 = threshold imgC9 100
  ∧ pil_greyscale (pil_greyscale pilC9) = pil_greyscale pilC9
  ∧ pil_invert (pil_invert pilC9) = pilC9
  ∧ pil_threshold (pil_threshold pilC9 100) 100 = pil_threshold pilC9 100 :=
  transform_idempotence imgC9 pilC9 100 (by decide) (by decide) (by decide) (by decide)

/-- Claim C10: for every Pillow-image input, `adaptive_threshold`
discards the caller-supplied `use_mean`, `radius` and `c` values and
recurses on the canonicalized image with the defaults
(use_mean=true, radius=2, c=0); the result is therefore independent of
those three parameters. -/
theorem adaptive_threshold_pil_ignores_kwargs (K : ExtKernels) (p : PILImage)
    (um um2 : Bool) (r r2 : Int) (c c2 : Rat) :
    adaptive_thresholdV K (.pil p) um r c = adaptive_thresholdV K (.pil p) um2 r2 c2
  ∧ adaptive_thresholdV K (.pil p) um r c
      = to_pilV K (.cv (adaptive_threshold_cv K (pil_to_cv2 p) true 2 0)) :=
  ⟨rfl, rfl⟩
